import Mathlib

/-!
Shallow embedding of `HandMovementRecognitionCalculator::Process` from
`mediapipe/graphs/hand_tracking/calculators/hand_movement_recognition_calculator.cc`.

The calculator object carries five float fields (`previous_x_center`,
`previous_y_center`, `previous_angle`, `previous_rectangle_width`,
`previous_rectangle_height`) and uses a per-calculator framework counter
that is incremented at the top of every `Process` call.  `Process` reads
a `NormalizedRect` (x_center, y_center, height) and a
`NormalizedLandmarkList`, and emits three label strings (scrolling,
zooming, sliding), defaulting to `"___"`.

Modelling conventions:
* C++ `float`/`double` arithmetic is idealised as exact real arithmetic.
* `std::atan2 y x` is modelled by `Complex.arg ⟨x, y⟩`, which agrees with
  atan2 everywhere (axes included, and `atan2 0 0 = 0`), range (-π, π].
* The framework value-initialises the calculator object, so every float
  field of a fresh calculator is `0` and the counter starts at `0`.
* A C++ truthiness test `if (floatField)` is modelled as `floatField ≠ 0`.
* The failing `RET_CHECK_GT(landmarkList.landmark_size(), 0)` is
  `Err.invalidInput` (the call returns early, before any state write).
* When the frame counter is even and the landmark list has fewer than 10
  entries, line 192 `landmarkList.landmark(9)` is an out-of-bounds
  repeated-field access; the call never reaches the output side packets.
  This is modelled as `Err.outOfBounds`.  The scroll/zoom state writes
  (lines 165-166, 186) have already happened at that point.
* `Process` returns the object state as it is when control leaves the
  method, together with either the three strings or the error.
-/

namespace HandMovementRecognition

open scoped Classical

/-- One entry of the `NormalizedLandmarkList` input (only x and y are read). -/
structure NormalizedLandmark where
  x : ℝ
  y : ℝ

/-- The per-frame inputs of `Process`: the NORM_RECT fields that are read
(height, x_center, y_center) and the NORM_LANDMARKS list. -/
structure Input where
  height : ℝ
  x_center : ℝ
  y_center : ℝ
  landmarks : List NormalizedLandmark

/-- The calculator's member fields plus the framework frame counter
(`cc->GetCounter("HandMovementRecognitionCalculator")`), in source
declaration order.  `previous_rectangle_width` is declared in the source
but never read or written. -/
structure State where
  previous_x_center : ℝ
  previous_y_center : ℝ
  previous_angle : ℝ
  previous_rectangle_width : ℝ
  previous_rectangle_height : ℝ
  frameCounter : ℕ

/-- A freshly value-initialised calculator: all float fields zero and the
framework counter at zero. -/
def State.fresh : State := ⟨0, 0, 0, 0, 0, 0⟩

/-- The three strings added to the output streams by one `Process` call. -/
structure Output where
  scrolling : String
  zooming : String
  sliding : String

/-- How a `Process` call can fail: the explicit `RET_CHECK_GT` on an empty
landmark list, or the unchecked out-of-bounds `landmark(9)` access. -/
inductive Err where
  | invalidInput : Err
  | outOfBounds : Err

/-- Model of `std::atan2 y x`: the argument of the complex number `x + y*i`,
which matches atan2 on all inputs (range (-π, π], and `atan2 0 0 = 0`). -/
noncomputable def atan2 (y x : ℝ) : ℝ := Complex.arg (Complex.mk x y)

/-- Source lines 45-49: `sqrt(pow(a_x - b_x, 2) + pow(a_y - b_y, 2))`. -/
noncomputable def get_Euclidean_DistanceAB (a_x a_y b_x b_y : ℝ) : ℝ :=
  Real.sqrt ((a_x - b_x) ^ 2 + (a_y - b_y) ^ 2)

/-- Source lines 57-70: with `ab = b - a` and `cb = b - c`, the result is
`atan2(cross(ab, cb), dot(ab, cb))`. -/
noncomputable def getAngleABC (a_x a_y b_x b_y c_x c_y : ℝ) : ℝ :=
  atan2 ((b_x - a_x) * (b_y - c_y) - (b_y - a_y) * (b_x - c_x))
    ((b_x - a_x) * (b_x - c_x) + (b_y - a_y) * (b_y - c_y))

/-- Source lines 72-75: `(int)floor(radian * 180. / M_PI + 0.5)`. -/
noncomputable def radianToDegree (radian : ℝ) : ℤ :=
  Int.floor (radian * 180 / Real.pi + 0.5)

/-- Source lines 131-164 (FEATURE 1 - Scrolling): truthiness gate on
`previous_x_center`, distance threshold `0.02 * height`, then the angle
quadrants.  The trailing `"___"` branches are the untouched default. -/
noncomputable def scrollingLabel (st : State) (inp : Input) : String :=
  if st.previous_x_center ≠ 0 then
    if get_Euclidean_DistanceAB inp.x_center inp.y_center st.previous_x_center
        st.previous_y_center > 0.02 * inp.height then
      let angle := radianToDegree (getAngleABC inp.x_center inp.y_center
        st.previous_x_center st.previous_y_center (st.previous_x_center + 0.1)
        st.previous_y_center)
      if -45 ≤ angle ∧ angle < 45 then "Scrolling right"
      else if 45 ≤ angle ∧ angle < 135 then "Scrolling up"
      else if 135 ≤ angle ∨ angle < -135 then "Scrolling left"
      else if -135 ≤ angle ∧ angle < -45 then "Scrolling down"
      else "___"
    else "___"
  else "___"

/-- Source lines 168-185 (FEATURE 2 - Zoom in/out): truthiness gate on
`previous_rectangle_height`, band of half-width `height * 0.03` around the
previous height. -/
noncomputable def zoomingLabel (st : State) (inp : Input) : String :=
  if st.previous_rectangle_height ≠ 0 then
    if inp.height < st.previous_rectangle_height - inp.height * 0.03 then "Zoom out"
    else if inp.height > st.previous_rectangle_height + inp.height * 0.03 then "Zoom in"
    else "___"
  else "___"

/-- Source lines 195-196: the hand-axis angle in integer degrees, measured
at the wrist against a horizontal reference point `wrist + (0.1, 0)`. -/
noncomputable def slideAngleDeg (wrist mcp : NormalizedLandmark) : ℤ :=
  radianToDegree (getAngleABC mcp.x mcp.y wrist.x wrist.y (wrist.x + 0.1) wrist.y)

/-- Source lines 198-215 (FEATURE 3 - Slide left/right): truthiness gate on
`previous_angle`, the [80, 100] vertical-pose gate, and the ±12 degree
classification band. -/
noncomputable def slidingLabel (previous_angle : ℝ) (ang_in_degree : ℤ) : String :=
  if previous_angle ≠ 0 then
    if 80 ≤ previous_angle ∧ previous_angle ≤ 100 then
      if (ang_in_degree : ℝ) > previous_angle + 12 then "Slide left"
      else if (ang_in_degree : ℝ) < previous_angle - 12 then "Slide right"
      else "___"
    else "___"
  else "___"

/-- Source lines 108-232, one `Process` invocation.  The counter is
incremented first (line 112); the empty-landmark `RET_CHECK` (line 129)
returns before any field write; the scroll and zoom labels are computed
from the old state and the centre/height fields are then overwritten
(lines 165-166, 186); the slide block runs only when the incremented
counter is even (line 189) and needs `landmark(9)`, which is out of
bounds when the list is shorter than 10. -/
noncomputable def Process (st : State) (inp : Input) : State × Except Err Output :=
  let counter := st.frameCounter + 1
  if inp.landmarks.length = 0 then
    ({ st with frameCounter := counter }, Except.error Err.invalidInput)
  else
    let scrolling := scrollingLabel st inp
    let zooming := zoomingLabel st inp
    let st1 : State :=
      { st with
        frameCounter := counter
        previous_x_center := inp.x_center
        previous_y_center := inp.y_center
        previous_rectangle_height := inp.height }
    if counter % 2 = 0 then
      if h10 : 10 ≤ inp.landmarks.length then
        let wrist := inp.landmarks.get ⟨0, by omega⟩
        let mcp := inp.landmarks.get ⟨9, by omega⟩
        let ang := slideAngleDeg wrist mcp
        ({ st1 with previous_angle := (ang : ℝ) },
          Except.ok ⟨scrolling, zooming, slidingLabel st.previous_angle ang⟩)
      else
        (st1, Except.error Err.outOfBounds)
    else
      (st1, Except.ok ⟨scrolling, zooming, "___"⟩)

/-! Exact values of `atan2` on the coordinate axes, and of `radianToDegree`
at the corresponding radian values. -/

theorem atan2_zero_of_pos {x : ℝ} (hx : 0 < x) : atan2 0 x = 0 := by
  unfold atan2
  rw [Complex.mk_eq_add_mul_I, Complex.ofReal_zero, zero_mul, add_zero]
  exact Complex.arg_ofReal_of_nonneg hx.le

theorem atan2_zero_of_neg {x : ℝ} (hx : x < 0) : atan2 0 x = Real.pi := by
  unfold atan2
  rw [Complex.mk_eq_add_mul_I, Complex.ofReal_zero, zero_mul, add_zero]
  exact Complex.arg_ofReal_of_neg hx

theorem atan2_pos_zero {y : ℝ} (hy : 0 < y) : atan2 y 0 = Real.pi / 2 := by
  unfold atan2
  rw [Complex.mk_eq_add_mul_I, Complex.ofReal_zero, zero_add,
    Complex.arg_real_mul _ hy, Complex.arg_I]

theorem atan2_neg_zero {y : ℝ} (hy : y < 0) : atan2 y 0 = -(Real.pi / 2) := by
  unfold atan2
  rw [Complex.mk_eq_add_mul_I, Complex.ofReal_zero, zero_add]
  have h : (y : ℂ) * Complex.I = ((-y : ℝ) : ℂ) * (-Complex.I) := by
    push_cast
    ring
  rw [h, Complex.arg_real_mul _ (by linarith), Complex.arg_neg_I]

theorem radianToDegree_zero : radianToDegree 0 = 0 := by
  unfold radianToDegree
  rw [show (0 : ℝ) * 180 / Real.pi + 0.5 = 0.5 by rw [zero_mul, zero_div, zero_add]]
  rw [Int.floor_eq_iff]
  norm_num

theorem radianToDegree_pi : radianToDegree Real.pi = 180 := by
  unfold radianToDegree
  rw [mul_comm Real.pi 180, mul_div_assoc, div_self Real.pi_ne_zero, mul_one]
  rw [Int.floor_eq_iff]
  norm_num

theorem radianToDegree_pi_div_two : radianToDegree (Real.pi / 2) = 90 := by
  unfold radianToDegree
  rw [show Real.pi / 2 * 180 / Real.pi = 90 by
    field_simp
    ring]
  rw [Int.floor_eq_iff]
  norm_num

theorem radianToDegree_neg_pi_div_two : radianToDegree (-(Real.pi / 2)) = -90 := by
  unfold radianToDegree
  rw [show -(Real.pi / 2) * 180 / Real.pi + 0.5 = (-89.5 : ℝ) by
    field_simp
    ring]
  rw [Int.floor_eq_iff]
  norm_num

/-- The angle computations at lines 144 and 195 both instantiate
`getAngleABC a b (b + (0.1, 0))`; in that shape the cross product is
`0.1 * (b_y - a_y)` and the dot product is `0.1 * (a_x - b_x)`. -/
theorem getAngleABC_horiz (a_x a_y b_x b_y : ℝ) :
    getAngleABC a_x a_y b_x b_y (b_x + 0.1) b_y =
      atan2 (0.1 * (b_y - a_y)) (0.1 * (a_x - b_x)) := by
  unfold getAngleABC
  congr 1
  · ring
  · ring

/-- Horizontal reference angle of a point strictly to the right: 0°. -/
theorem angleDeg_right {a_x a_y b_x b_y : ℝ} (hy : a_y = b_y) (hx : b_x < a_x) :
    radianToDegree (getAngleABC a_x a_y b_x b_y (b_x + 0.1) b_y) = 0 := by
  rw [getAngleABC_horiz, hy, sub_self, mul_zero,
    atan2_zero_of_pos (by linarith), radianToDegree_zero]

/-- Horizontal reference angle of a point strictly to the left: 180°. -/
theorem angleDeg_left {a_x a_y b_x b_y : ℝ} (hy : a_y = b_y) (hx : a_x < b_x) :
    radianToDegree (getAngleABC a_x a_y b_x b_y (b_x + 0.1) b_y) = 180 := by
  rw [getAngleABC_horiz, hy, sub_self, mul_zero,
    atan2_zero_of_neg (by linarith), radianToDegree_pi]

/-- Horizontal reference angle of a point strictly below (smaller y): 90°. -/
theorem angleDeg_up {a_x a_y b_x b_y : ℝ} (hx : a_x = b_x) (hy : a_y < b_y) :
    radianToDegree (getAngleABC a_x a_y b_x b_y (b_x + 0.1) b_y) = 90 := by
  rw [getAngleABC_horiz, hx, sub_self, mul_zero,
    atan2_pos_zero (by linarith), radianToDegree_pi_div_two]

/-- Horizontal reference angle of a point strictly above (larger y): -90°. -/
theorem angleDeg_down {a_x a_y b_x b_y : ℝ} (hx : a_x = b_x) (hy : b_y < a_y) :
    radianToDegree (getAngleABC a_x a_y b_x b_y (b_x + 0.1) b_y) = -90 := by
  rw [getAngleABC_horiz, hx, sub_self, mul_zero,
    atan2_neg_zero (by linarith), radianToDegree_neg_pi_div_two]

/-! Case shapes of one `Process` invocation. -/

theorem Process_empty (st : State) (inp : Input) (h : inp.landmarks.length = 0) :
    Process st inp = ({ st with frameCounter := st.frameCounter + 1 },
      Except.error Err.invalidInput) := by
  simp only [Process]
  rw [if_pos h]

theorem Process_odd (st : State) (inp : Input) (h0 : inp.landmarks.length ≠ 0)
    (hodd : (st.frameCounter + 1) % 2 ≠ 0) :
    Process st inp =
      ({ st with
          frameCounter := st.frameCounter + 1
          previous_x_center := inp.x_center
          previous_y_center := inp.y_center
          previous_rectangle_height := inp.height },
        Except.ok ⟨scrollingLabel st inp, zoomingLabel st inp, "___"⟩) := by
  simp only [Process]
  rw [if_neg h0, if_neg hodd]

theorem Process_even_short (st : State) (inp : Input) (h0 : inp.landmarks.length ≠ 0)
    (heven : (st.frameCounter + 1) % 2 = 0) (h10 : ¬ 10 ≤ inp.landmarks.length) :
    Process st inp =
      ({ st with
          frameCounter := st.frameCounter + 1
          previous_x_center := inp.x_center
          previous_y_center := inp.y_center
          previous_rectangle_height := inp.height },
        Except.error Err.outOfBounds) := by
  simp only [Process]
  rw [if_neg h0, if_pos heven, dif_neg h10]

theorem Process_even_full (st : State) (inp : Input) (h0 : inp.landmarks.length ≠ 0)
    (heven : (st.frameCounter + 1) % 2 = 0) (h10 : 10 ≤ inp.landmarks.length) :
    Process st inp =
      ({ st with
          frameCounter := st.frameCounter + 1
          previous_x_center := inp.x_center
          previous_y_center := inp.y_center
          previous_rectangle_height := inp.height
          previous_angle :=
            ((slideAngleDeg (inp.landmarks.get ⟨0, by omega⟩)
              (inp.landmarks.get ⟨9, by omega⟩) : ℤ) : ℝ) },
        Except.ok ⟨scrollingLabel st inp, zoomingLabel st inp,
          slidingLabel st.previous_angle
            (slideAngleDeg (inp.landmarks.get ⟨0, by omega⟩)
              (inp.landmarks.get ⟨9, by omega⟩))⟩) := by
  simp only [Process]
  rw [if_neg h0, if_pos heven, dif_pos h10]

/-! Extraction of the three labels out of a successful invocation. -/

theorem scrolling_of_ok (st : State) (inp : Input) (out : Output)
    (hok : (Process st inp).2 = Except.ok out) :
    out.scrolling = scrollingLabel st inp := by
  by_cases h0 : inp.landmarks.length = 0
  · rw [Process_empty st inp h0] at hok
    simp at hok
  · by_cases hpar : (st.frameCounter + 1) % 2 = 0
    · by_cases h10 : 10 ≤ inp.landmarks.length
      · rw [Process_even_full st inp h0 hpar h10] at hok
        simp only [Except.ok.injEq] at hok
        rw [← hok]
      · rw [Process_even_short st inp h0 hpar h10] at hok
        simp at hok
    · rw [Process_odd st inp h0 hpar] at hok
      simp only [Except.ok.injEq] at hok
      rw [← hok]

theorem zooming_of_ok (st : State) (inp : Input) (out : Output)
    (hok : (Process st inp).2 = Except.ok out) :
    out.zooming = zoomingLabel st inp := by
  by_cases h0 : inp.landmarks.length = 0
  · rw [Process_empty st inp h0] at hok
    simp at hok
  · by_cases hpar : (st.frameCounter + 1) % 2 = 0
    · by_cases h10 : 10 ≤ inp.landmarks.length
      · rw [Process_even_full st inp h0 hpar h10] at hok
        simp only [Except.ok.injEq] at hok
        rw [← hok]
      · rw [Process_even_short st inp h0 hpar h10] at hok
        simp at hok
    · rw [Process_odd st inp h0 hpar] at hok
      simp only [Except.ok.injEq] at hok
      rw [← hok]

theorem sliding_of_ok (st : State) (inp : Input) (out : Output)
    (hok : (Process st inp).2 = Except.ok out) :
    out.sliding = "___" ∨
      ∃ h10 : 10 ≤ inp.landmarks.length,
        out.sliding = slidingLabel st.previous_angle
          (slideAngleDeg (inp.landmarks.get ⟨0, by omega⟩)
            (inp.landmarks.get ⟨9, by omega⟩)) := by
  by_cases h0 : inp.landmarks.length = 0
  · rw [Process_empty st inp h0] at hok
    simp at hok
  · by_cases hpar : (st.frameCounter + 1) % 2 = 0
    · by_cases h10 : 10 ≤ inp.landmarks.length
      · rw [Process_even_full st inp h0 hpar h10] at hok
        simp only [Except.ok.injEq] at hok
        exact Or.inr ⟨h10, by rw [← hok]⟩
      · rw [Process_even_short st inp h0 hpar h10] at hok
        simp at hok
    · rw [Process_odd st inp h0 hpar] at hok
      simp only [Except.ok.injEq] at hok
      exact Or.inl (by rw [← hok])

/-! The truthiness and range gates of the three label functions. -/

theorem scrollingLabel_of_uninit (st : State) (inp : Input)
    (h : st.previous_x_center = 0) : scrollingLabel st inp = "___" := by
  unfold scrollingLabel
  rw [if_neg (by simp [h])]

theorem slidingLabel_of_uninit (ang : ℤ) : slidingLabel 0 ang = "___" := by
  unfold slidingLabel
  rw [if_neg (by simp)]

theorem slidingLabel_of_gate (prev : ℝ) (ang : ℤ) (h : prev < 80 ∨ 100 < prev) :
    slidingLabel prev ang = "___" := by
  unfold slidingLabel
  by_cases h0 : prev ≠ 0
  · rw [if_pos h0, if_neg (by rintro ⟨h1, h2⟩; rcases h with h | h <;> linarith)]
  · rw [if_neg h0]

/-- C5: in every call sequence, whenever the stored previous slide angle
lies outside [80, 100] degrees, the slide label of a successful call is
never "Slide left" and never "Slide right", regardless of the current
frame's landmarks (source lines 198-215: the inner classification only
runs under the `previous_angle >= 80 && previous_angle <= 100` gate). -/
theorem C5_slide_gate (st : State) (inp : Input) (out : Output)
    (hgate : st.previous_angle < 80 ∨ 100 < st.previous_angle)
    (hok : (Process st inp).2 = Except.ok out) :
    out.sliding ≠ "Slide left" ∧ out.sliding ≠ "Slide right" := by
  have h : out.sliding = "___" := by
    rcases sliding_of_ok st inp out hok with h | ⟨h10, h⟩
    · exact h
    · rw [h, slidingLabel_of_gate _ _ hgate]
  rw [h]
  exact ⟨by decide, by decide⟩

/-- C6: the frame counter increments exactly once per invocation; on a
call whose (incremented) counter value is odd the stored slide angle is
untouched; and the stored previous centre and previous height are
overwritten with the current frame values on every call that passes the
non-empty-landmark check, regardless of parity. -/
theorem C6_parity_state_updates (st : State) (inp : Input) :
    (Process st inp).1.frameCounter = st.frameCounter + 1 ∧
    ((st.frameCounter + 1) % 2 = 1 →
      (Process st inp).1.previous_angle = st.previous_angle) ∧
    (inp.landmarks.length ≠ 0 →
      (Process st inp).1.previous_x_center = inp.x_center ∧
      (Process st inp).1.previous_y_center = inp.y_center ∧
      (Process st inp).1.previous_rectangle_height = inp.height) := by
  by_cases h0 : inp.landmarks.length = 0
  · rw [Process_empty st inp h0]
    exact ⟨rfl, fun _ => rfl, fun h => absurd h0 h⟩
  · by_cases hpar : (st.frameCounter + 1) % 2 = 0
    · by_cases h10 : 10 ≤ inp.landmarks.length
      · rw [Process_even_full st inp h0 hpar h10]
        exact ⟨rfl, fun hodd => ((by omega : False)).elim, fun _ => ⟨rfl, rfl, rfl⟩⟩
      · rw [Process_even_short st inp h0 hpar h10]
        exact ⟨rfl, fun _ => rfl, fun _ => ⟨rfl, rfl, rfl⟩⟩
    · rw [Process_odd st inp h0 hpar]
      exact ⟨rfl, fun _ => rfl, fun _ => ⟨rfl, rfl, rfl⟩⟩

/-- C7: with a remembered (truthy) previous height, a successful call
labels "Zoom out" when the height shrank below the previous height by
more than `0.03 * height`, "Zoom in" when it grew by more than that, and
leaves the neutral label inside the band (source lines 168-185).  The
height is positive by the input contract (a normalized rectangle). -/
theorem C7_zoom_band (st : State) (inp : Input) (out : Output)
    (hh : 0 < inp.height)
    (hprev : st.previous_rectangle_height ≠ 0)
    (hok : (Process st inp).2 = Except.ok out) :
    (inp.height < st.previous_rectangle_height - 0.03 * inp.height →
      out.zooming = "Zoom out") ∧
    (inp.height > st.previous_rectangle_height + 0.03 * inp.height →
      out.zooming = "Zoom in") ∧
    (st.previous_rectangle_height - 0.03 * inp.height ≤ inp.height →
      inp.height ≤ st.previous_rectangle_height + 0.03 * inp.height →
      out.zooming = "___") := by
  rw [zooming_of_ok st inp out hok]
  unfold zoomingLabel
  rw [if_pos hprev]
  refine ⟨fun h1 => ?_, fun h2 => ?_, fun h3 h4 => ?_⟩
  · rw [if_pos (by linarith)]
  · rw [if_neg (by push_neg; linarith), if_pos (by linarith)]
  · rw [if_neg (by push_neg; linarith), if_neg (by push_neg; linarith)]

/-- C8: a call with an empty landmark sequence fails at the
`RET_CHECK_GT` (modelled `Err.invalidInput`) before any of the remembered
fields (previous centre, previous height, slide angle) is written, so the
stored state is exactly what it was before the call. -/
theorem C8_empty_input_atomic (st : State) (inp : Input)
    (h : inp.landmarks.length = 0) :
    (Process st inp).2 = Except.error Err.invalidInput ∧
    (Process st inp).1.previous_x_center = st.previous_x_center ∧
    (Process st inp).1.previous_y_center = st.previous_y_center ∧
    (Process st inp).1.previous_rectangle_height = st.previous_rectangle_height ∧
    (Process st inp).1.previous_angle = st.previous_angle := by
  rw [Process_empty st inp h]
  exact ⟨rfl, rfl, rfl, rfl, rfl⟩

theorem zoomingLabel_of_uninit (st : State) (inp : Input)
    (h : st.previous_rectangle_height = 0) : zoomingLabel st inp = "___" := by
  unfold zoomingLabel
  rw [if_neg (by simp [h])]

theorem Process_fst_x_center (st : State) (inp : Input)
    (h0 : inp.landmarks.length ≠ 0) :
    (Process st inp).1.previous_x_center = inp.x_center := by
  by_cases hpar : (st.frameCounter + 1) % 2 = 0
  · by_cases h10 : 10 ≤ inp.landmarks.length
    · rw [Process_even_full st inp h0 hpar h10]
    · rw [Process_even_short st inp h0 hpar h10]
  · rw [Process_odd st inp h0 hpar]

/-! The four pure-axis movement outcomes of the scrolling block. -/

theorem scrollingLabel_right (st : State) (inp : Input)
    (hpx : st.previous_x_center ≠ 0)
    (hdist : get_Euclidean_DistanceAB inp.x_center inp.y_center
      st.previous_x_center st.previous_y_center > 0.02 * inp.height)
    (hy : inp.y_center = st.previous_y_center)
    (hx : st.previous_x_center < inp.x_center) :
    scrollingLabel st inp = "Scrolling right" := by
  simp only [scrollingLabel]
  rw [if_pos hpx, if_pos hdist, angleDeg_right hy hx]
  norm_num

theorem scrollingLabel_up (st : State) (inp : Input)
    (hpx : st.previous_x_center ≠ 0)
    (hdist : get_Euclidean_DistanceAB inp.x_center inp.y_center
      st.previous_x_center st.previous_y_center > 0.02 * inp.height)
    (hx : inp.x_center = st.previous_x_center)
    (hy : inp.y_center < st.previous_y_center) :
    scrollingLabel st inp = "Scrolling up" := by
  simp only [scrollingLabel]
  rw [if_pos hpx, if_pos hdist, angleDeg_up hx hy]
  norm_num

theorem scrollingLabel_left (st : State) (inp : Input)
    (hpx : st.previous_x_center ≠ 0)
    (hdist : get_Euclidean_DistanceAB inp.x_center inp.y_center
      st.previous_x_center st.previous_y_center > 0.02 * inp.height)
    (hy : inp.y_center = st.previous_y_center)
    (hx : inp.x_center < st.previous_x_center) :
    scrollingLabel st inp = "Scrolling left" := by
  simp only [scrollingLabel]
  rw [if_pos hpx, if_pos hdist, angleDeg_left hy hx]
  norm_num

theorem scrollingLabel_down (st : State) (inp : Input)
    (hpx : st.previous_x_center ≠ 0)
    (hdist : get_Euclidean_DistanceAB inp.x_center inp.y_center
      st.previous_x_center st.previous_y_center > 0.02 * inp.height)
    (hx : inp.x_center = st.previous_x_center)
    (hy : st.previous_y_center < inp.y_center) :
    scrollingLabel st inp = "Scrolling down" := by
  simp only [scrollingLabel]
  rw [if_pos hpx, if_pos hdist, angleDeg_down hx hy]
  norm_num

/-- C1 (amended): with a remembered previous centre and an
above-threshold movement, a pure +x movement yields "Scrolling right", a
pure -y movement yields "Scrolling up", a pure -x movement yields
"Scrolling left" and a pure +y movement yields "Scrolling down".  The
code computes `atan2(prev_y - y, x - prev_x)`, so in the normalized
image coordinates (y growing downward) the two vertical labels are the
opposite of the claim's +y ↦ Up, -y ↦ Down assignment. -/
theorem C1_scroll_pure_axis (st : State) (inp : Input) (out : Output)
    (hpx : st.previous_x_center ≠ 0)
    (hdist : get_Euclidean_DistanceAB inp.x_center inp.y_center
      st.previous_x_center st.previous_y_center > 0.02 * inp.height)
    (hok : (Process st inp).2 = Except.ok out) :
    (inp.y_center = st.previous_y_center → st.previous_x_center < inp.x_center →
      out.scrolling = "Scrolling right") ∧
    (inp.x_center = st.previous_x_center → inp.y_center < st.previous_y_center →
      out.scrolling = "Scrolling up") ∧
    (inp.y_center = st.previous_y_center → inp.x_center < st.previous_x_center →
      out.scrolling = "Scrolling left") ∧
    (inp.x_center = st.previous_x_center → st.previous_y_center < inp.y_center →
      out.scrolling = "Scrolling down") := by
  rw [scrolling_of_ok st inp out hok]
  exact ⟨fun h1 h2 => scrollingLabel_right st inp hpx hdist h1 h2,
    fun h1 h2 => scrollingLabel_up st inp hpx hdist h1 h2,
    fun h1 h2 => scrollingLabel_left st inp hpx hdist h1 h2,
    fun h1 h2 => scrollingLabel_down st inp hpx hdist h1 h2⟩

/-- C1 counterexample: from previous centre (0.5, 0.5), with rectangle
height 0.3, a pure +y movement to centre (0.5, 0.6) (distance 0.1, well
above the threshold 0.006) is labelled "Scrolling down", not
"Scrolling up" as the claim requires for pure +y. -/
theorem C1_counterexample :
    (Process ⟨0.5, 0.5, 0, 0, 0.3, 0⟩ ⟨0.3, 0.5, 0.6, [⟨0, 0⟩]⟩).2 =
      Except.ok ⟨"Scrolling down", "___", "___"⟩ := by
  have h1 := Process_odd ⟨0.5, 0.5, 0, 0, 0.3, 0⟩ ⟨0.3, 0.5, 0.6, [⟨0, 0⟩]⟩
    (by decide) (by decide)
  have hdist : get_Euclidean_DistanceAB
      (⟨0.3, 0.5, 0.6, [⟨0, 0⟩]⟩ : Input).x_center
      (⟨0.3, 0.5, 0.6, [⟨0, 0⟩]⟩ : Input).y_center
      ((⟨0.5, 0.5, 0, 0, 0.3, 0⟩ : State)).previous_x_center
      ((⟨0.5, 0.5, 0, 0, 0.3, 0⟩ : State)).previous_y_center >
      0.02 * (⟨0.3, 0.5, 0.6, [⟨0, 0⟩]⟩ : Input).height := by
    show get_Euclidean_DistanceAB 0.5 0.6 0.5 0.5 > 0.02 * 0.3
    unfold get_Euclidean_DistanceAB
    rw [gt_iff_lt, show (0.02 * 0.3 : ℝ) = 0.006 by norm_num,
      Real.lt_sqrt (by norm_num)]
    norm_num
  have hs : scrollingLabel ⟨0.5, 0.5, 0, 0, 0.3, 0⟩ ⟨0.3, 0.5, 0.6, [⟨0, 0⟩]⟩ =
      "Scrolling down" :=
    scrollingLabel_down _ _ (by norm_num) hdist rfl (by norm_num)
  have hz : zoomingLabel ⟨0.5, 0.5, 0, 0, 0.3, 0⟩ ⟨0.3, 0.5, 0.6, [⟨0, 0⟩]⟩ =
      "___" := by
    norm_num [zoomingLabel]
  simp only [h1, hs, hz]

/-- C2: the code behaviour on an even frame whose landmark list has
fewer than 10 entries (here one entry).  There is no InvalidInput
failure and no output at all: the scroll/zoom state writes are already
committed (previous centre becomes (0.6, 0.7), previous height 0.4) and
then the unchecked `landmark(9)` access goes out of bounds. -/
theorem C2_short_list_behavior :
    Process ⟨0.5, 0.5, 0, 0, 0.3, 1⟩ ⟨0.4, 0.6, 0.7, [⟨0.1, 0.2⟩]⟩ =
      (⟨0.6, 0.7, 0, 0, 0.4, 2⟩, Except.error Err.outOfBounds) := by
  rw [Process_even_short ⟨0.5, 0.5, 0, 0, 0.3, 1⟩ ⟨0.4, 0.6, 0.7, [⟨0.1, 0.2⟩]⟩
    (by decide) (by decide) (by decide)]

/-- C3 counterexample: a call whose rectangle height is -0.5 (non-positive)
does not fail with InvalidInput; it succeeds and emits the three labels. -/
theorem C3_counterexample :
    (Process State.fresh ⟨-0.5, 0.2, 0.2, [⟨0, 0⟩]⟩).2 =
      Except.ok ⟨"___", "___", "___"⟩ := by
  have h1 := Process_odd State.fresh ⟨-0.5, 0.2, 0.2, [⟨0, 0⟩]⟩ (by decide) (by decide)
  have hs := scrollingLabel_of_uninit State.fresh ⟨-0.5, 0.2, 0.2, [⟨0, 0⟩]⟩ rfl
  have hz := zoomingLabel_of_uninit State.fresh ⟨-0.5, 0.2, 0.2, [⟨0, 0⟩]⟩ rfl
  simp only [h1, hs, hz]

/-- C3 (amended): the code never validates the rectangle height.  A call
with non-positive height is not rejected: it succeeds (computing the
labels with the height-scaled thresholds) whenever the landmark-count
conditions are met, namely a non-empty list, and at least 10 entries on
even counter values. -/
theorem C3_no_height_check (st : State) (inp : Input)
    (_hh : inp.height ≤ 0) (h0 : inp.landmarks.length ≠ 0)
    (hp : (st.frameCounter + 1) % 2 = 1 ∨ 10 ≤ inp.landmarks.length) :
    ∃ out, (Process st inp).2 = Except.ok out := by
  by_cases hpar : (st.frameCounter + 1) % 2 = 0
  · have h10 : 10 ≤ inp.landmarks.length := by
      rcases hp with h | h
      · omega
      · exact h
    exact ⟨_, by rw [Process_even_full st inp h0 hpar h10]⟩
  · exact ⟨_, by rw [Process_odd st inp h0 hpar]⟩

/-- C4 (amended): on the first frame of a freshly value-initialised
calculator, all three emitted labels are the neutral "___", the previous
centre and previous height are seeded from the frame, but the slide
reference angle is NOT seeded: the incremented counter value is 1 (odd),
so the slide block does not run, and `previous_angle` stays 0. -/
theorem C4_first_frame (inp : Input) (h0 : inp.landmarks.length ≠ 0) :
    (Process State.fresh inp).2 = Except.ok ⟨"___", "___", "___"⟩ ∧
    (Process State.fresh inp).1 = ⟨inp.x_center, inp.y_center, 0, 0, inp.height, 1⟩ := by
  rw [Process_odd State.fresh inp h0 (by decide)]
  constructor
  · simp only [scrollingLabel_of_uninit State.fresh inp rfl,
      zoomingLabel_of_uninit State.fresh inp rfl]
  · rfl

/-- C4 counterexample: feed a fresh calculator one frame whose landmarks
put the wrist at (0.5, 0.5) and the middle-finger MCP at (0.5, 0.4), a
hand-axis angle of 90 degrees.  After the call the stored slide angle is
still 0, not the frame's angle: the slide state is not seeded by the
first frame. -/
theorem C4_counterexample :
    (Process State.fresh ⟨0.3, 0.5, 0.5,
      [⟨0.5, 0.5⟩, ⟨0, 0⟩, ⟨0, 0⟩, ⟨0, 0⟩, ⟨0, 0⟩, ⟨0, 0⟩, ⟨0, 0⟩, ⟨0, 0⟩,
        ⟨0, 0⟩, ⟨0.5, 0.4⟩]⟩).1.previous_angle = 0 ∧
    slideAngleDeg ⟨0.5, 0.5⟩ ⟨0.5, 0.4⟩ = 90 := by
  constructor
  · rw [Process_odd State.fresh ⟨0.3, 0.5, 0.5,
      [⟨0.5, 0.5⟩, ⟨0, 0⟩, ⟨0, 0⟩, ⟨0, 0⟩, ⟨0, 0⟩, ⟨0, 0⟩, ⟨0, 0⟩, ⟨0, 0⟩,
        ⟨0, 0⟩, ⟨0.5, 0.4⟩]⟩ (by decide) (by decide)]
    rfl
  · unfold slideAngleDeg
    exact angleDeg_up rfl (by norm_num)

/-- C9 (amended): the conversion used by both angle features equals
`round(radians * 180/π)` (Mathlib's `round` is floor of the value plus a
half, exactly the source's `floor(x + 0.5)`), and on the atan2 range
(-π, π] the integer result lies in the closed range [-180, 180].  The
lower end -180 is attained, so the claimed half-open range (-180, 180]
is off by the single value -180. -/
theorem C9_radianToDegree_round (r : ℝ) :
    radianToDegree r = round (r * 180 / Real.pi) ∧
    (-Real.pi < r → r ≤ Real.pi →
      -180 ≤ radianToDegree r ∧ radianToDegree r ≤ 180) := by
  constructor
  · rw [round_eq, radianToDegree]
    norm_num
  · intro h1 h2
    unfold radianToDegree
    have hpi := Real.pi_pos
    have hx1 : (-180 : ℝ) < r * 180 / Real.pi := by
      rw [lt_div_iff₀ hpi]
      linarith
    have hx2 : r * 180 / Real.pi ≤ 180 := by
      rw [div_le_iff₀ hpi]
      linarith
    constructor
    · rw [Int.le_floor]
      push_cast
      linarith
    · have h3 : (⌊r * 180 / Real.pi + 0.5⌋ : ℤ) < 181 := by
        rw [Int.floor_lt]
        push_cast
        linarith
      omega

/-- C9 counterexample: -3.141 lies in (-π, π] (the atan2 range), yet the
conversion sends it to -180, which is outside the claimed range
(-180, 180]. -/
theorem C9_counterexample :
    -Real.pi < (-3.141 : ℝ) ∧ (-3.141 : ℝ) ≤ Real.pi ∧
      radianToDegree (-3.141) = -180 := by
  have hgt := Real.pi_gt_d6
  have hlt := Real.pi_lt_d6
  have hpi := Real.pi_pos
  refine ⟨by norm_num at hgt ⊢; linarith, by linarith, ?_⟩
  unfold radianToDegree
  have hx1 : (-180.5 : ℝ) ≤ -3.141 * 180 / Real.pi := by
    rw [le_div_iff₀ hpi]
    norm_num at hgt ⊢
    nlinarith
  have hx2 : -3.141 * 180 / Real.pi < (-179.5 : ℝ) := by
    rw [div_lt_iff₀ hpi]
    norm_num at hlt ⊢
    nlinarith
  rw [Int.floor_eq_iff]
  push_cast
  constructor
  · linarith
  · linarith

/-- C10: the presence of a previous frame is tested by the truthiness of
the stored values themselves.  First, after any frame whose rectangle
centre x-coordinate is exactly 0, the next successful call's scroll
label is the neutral "___" no matter how far the centre moved.  Second,
with a stored slide angle of exactly 0 degrees, a successful call's
slide label is the neutral "___" (the even-frame slide block behaves as
if not yet initialised), no matter what the landmarks are. -/
theorem C10_truthiness_gates :
    (∀ (st : State) (inp1 inp2 : Input) (out2 : Output),
      inp1.x_center = 0 → inp1.landmarks.length ≠ 0 →
      (Process (Process st inp1).1 inp2).2 = Except.ok out2 →
      out2.scrolling = "___") ∧
    (∀ (st : State) (inp : Input) (out : Output),
      st.previous_angle = 0 →
      (Process st inp).2 = Except.ok out →
      out.sliding = "___") := by
  constructor
  · intro st inp1 inp2 out2 hx h0 hok
    have hpx : (Process st inp1).1.previous_x_center = 0 := by
      rw [Process_fst_x_center st inp1 h0, hx]
    rw [scrolling_of_ok (Process st inp1).1 inp2 out2 hok,
      scrollingLabel_of_uninit (Process st inp1).1 inp2 hpx]
  · intro st inp out hang hok
    rcases sliding_of_ok st inp out hok with h | ⟨h10, h⟩
    · exact h
    · rw [h, hang, slidingLabel_of_uninit]

/-! Concrete witnesses instantiating the hypotheses of the theorems above. -/

theorem C1_witness :
    ((⟨0.5, 0.5, 0, 0, 0.3, 0⟩ : State).previous_x_center ≠ 0) ∧
    (⟨"Scrolling right", "___", "___"⟩ : Output).scrolling = "Scrolling right" := by
  have hpx : (⟨0.5, 0.5, 0, 0, 0.3, 0⟩ : State).previous_x_center ≠ 0 := by norm_num
  have hdist : get_Euclidean_DistanceAB
      (⟨0.3, 0.56, 0.5, [⟨0, 0⟩]⟩ : Input).x_center
      (⟨0.3, 0.56, 0.5, [⟨0, 0⟩]⟩ : Input).y_center
      (⟨0.5, 0.5, 0, 0, 0.3, 0⟩ : State).previous_x_center
      (⟨0.5, 0.5, 0, 0, 0.3, 0⟩ : State).previous_y_center >
      0.02 * (⟨0.3, 0.56, 0.5, [⟨0, 0⟩]⟩ : Input).height := by
    show get_Euclidean_DistanceAB 0.56 0.5 0.5 0.5 > 0.02 * 0.3
    unfold get_Euclidean_DistanceAB
    rw [gt_iff_lt, show (0.02 * 0.3 : ℝ) = 0.006 by norm_num,
      Real.lt_sqrt (by norm_num)]
    norm_num
  have hok : (Process ⟨0.5, 0.5, 0, 0, 0.3, 0⟩ ⟨0.3, 0.56, 0.5, [⟨0, 0⟩]⟩).2 =
      Except.ok ⟨"Scrolling right", "___", "___"⟩ := by
    have h1 := Process_odd ⟨0.5, 0.5, 0, 0, 0.3, 0⟩ ⟨0.3, 0.56, 0.5, [⟨0, 0⟩]⟩
      (by decide) (by decide)
    have hs : scrollingLabel ⟨0.5, 0.5, 0, 0, 0.3, 0⟩ ⟨0.3, 0.56, 0.5, [⟨0, 0⟩]⟩ =
        "Scrolling right" :=
      scrollingLabel_right _ _ hpx hdist rfl (by norm_num)
    have hz : zoomingLabel ⟨0.5, 0.5, 0, 0, 0.3, 0⟩ ⟨0.3, 0.56, 0.5, [⟨0, 0⟩]⟩ =
        "___" := by
      norm_num [zoomingLabel]
    simp only [h1, hs, hz]
  exact ⟨hpx, (C1_scroll_pure_axis ⟨0.5, 0.5, 0, 0, 0.3, 0⟩
    ⟨0.3, 0.56, 0.5, [⟨0, 0⟩]⟩ ⟨"Scrolling right", "___", "___"⟩
    hpx hdist hok).1 rfl (by norm_num)⟩

theorem C3_witness :
    ((⟨-1, 0.4, 0.4, [⟨0, 0⟩]⟩ : Input).height ≤ 0) ∧
    ∃ out, (Process ⟨0.1, 0.2, 0, 0, 0.3, 2⟩ ⟨-1, 0.4, 0.4, [⟨0, 0⟩]⟩).2 =
      Except.ok out :=
  ⟨by norm_num, C3_no_height_check ⟨0.1, 0.2, 0, 0, 0.3, 2⟩ ⟨-1, 0.4, 0.4, [⟨0, 0⟩]⟩
    (by norm_num) (by decide) (Or.inl (by decide))⟩

theorem C4_witness :
    (([(⟨0, 0⟩ : NormalizedLandmark)] : List NormalizedLandmark).length ≠ 0) ∧
    (Process State.fresh ⟨0.3, 0.4, 0.6, [⟨0, 0⟩]⟩).2 =
      Except.ok ⟨"___", "___", "___"⟩ ∧
    (Process State.fresh ⟨0.3, 0.4, 0.6, [⟨0, 0⟩]⟩).1 = ⟨0.4, 0.6, 0, 0, 0.3, 1⟩ := by
  have h := C4_first_frame ⟨0.3, 0.4, 0.6, [⟨0, 0⟩]⟩ (by decide)
  exact ⟨by decide, h.1, h.2⟩

theorem C5_witness :
    ((⟨0, 0, 50, 0, 0, 1⟩ : State).previous_angle < 80 ∨
      100 < (⟨0, 0, 50, 0, 0, 1⟩ : State).previous_angle) ∧
    ((⟨"___", "___", "___"⟩ : Output).sliding ≠ "Slide left" ∧
      (⟨"___", "___", "___"⟩ : Output).sliding ≠ "Slide right") := by
  have hok : (Process ⟨0, 0, 50, 0, 0, 1⟩ ⟨0.3, 0.7, 0.7,
      [⟨0.5, 0.5⟩, ⟨0, 0⟩, ⟨0, 0⟩, ⟨0, 0⟩, ⟨0, 0⟩, ⟨0, 0⟩, ⟨0, 0⟩, ⟨0, 0⟩,
        ⟨0, 0⟩, ⟨0.5, 0.4⟩]⟩).2 = Except.ok ⟨"___", "___", "___"⟩ := by
    have h1 := Process_even_full ⟨0, 0, 50, 0, 0, 1⟩ ⟨0.3, 0.7, 0.7,
      [⟨0.5, 0.5⟩, ⟨0, 0⟩, ⟨0, 0⟩, ⟨0, 0⟩, ⟨0, 0⟩, ⟨0, 0⟩, ⟨0, 0⟩, ⟨0, 0⟩,
        ⟨0, 0⟩, ⟨0.5, 0.4⟩]⟩ (by decide) (by decide) (by decide)
    have hs := scrollingLabel_of_uninit (⟨0, 0, 50, 0, 0, 1⟩ : State)
      (⟨0.3, 0.7, 0.7, [⟨0.5, 0.5⟩, ⟨0, 0⟩, ⟨0, 0⟩, ⟨0, 0⟩, ⟨0, 0⟩, ⟨0, 0⟩,
        ⟨0, 0⟩, ⟨0, 0⟩, ⟨0, 0⟩, ⟨0.5, 0.4⟩]⟩ : Input) rfl
    have hz := zoomingLabel_of_uninit (⟨0, 0, 50, 0, 0, 1⟩ : State)
      (⟨0.3, 0.7, 0.7, [⟨0.5, 0.5⟩, ⟨0, 0⟩, ⟨0, 0⟩, ⟨0, 0⟩, ⟨0, 0⟩, ⟨0, 0⟩,
        ⟨0, 0⟩, ⟨0, 0⟩, ⟨0, 0⟩, ⟨0.5, 0.4⟩]⟩ : Input) rfl
    have hsl : ∀ ang : ℤ, slidingLabel (50 : ℝ) ang = "___" :=
      fun ang => slidingLabel_of_gate 50 ang (Or.inl (by norm_num))
    simp only [h1, hs, hz, hsl]
  exact ⟨Or.inl (by norm_num),
    C5_slide_gate _ _ _ (Or.inl (by norm_num)) hok⟩

theorem C6_witness :
    ((State.fresh.frameCounter + 1) % 2 = 1 ∧
      (Process State.fresh ⟨0.3, 0.5, 0.6, [⟨0, 0⟩]⟩).1.previous_angle =
        State.fresh.previous_angle) ∧
    (([(⟨0, 0⟩ : NormalizedLandmark)] : List NormalizedLandmark).length ≠ 0 ∧
      (Process State.fresh ⟨0.3, 0.5, 0.6, [⟨0, 0⟩]⟩).1.previous_x_center = 0.5) ∧
    (Process State.fresh ⟨0.3, 0.5, 0.6, [⟨0, 0⟩]⟩).1.frameCounter =
      State.fresh.frameCounter + 1 := by
  have h := C6_parity_state_updates State.fresh ⟨0.3, 0.5, 0.6, [⟨0, 0⟩]⟩
  exact ⟨⟨by decide, h.2.1 (by decide)⟩, ⟨by decide, (h.2.2 (by decide)).1⟩, h.1⟩

theorem C7_witness :
    ((0 : ℝ) < (⟨1, 0.5, 0.5, [⟨0, 0⟩]⟩ : Input).height) ∧
    ((⟨0, 0, 0, 0, 0.5, 0⟩ : State).previous_rectangle_height ≠ 0) ∧
    ((1 : ℝ) > 0.5 + 0.03 * 1) ∧
    (⟨"___", "Zoom in", "___"⟩ : Output).zooming = "Zoom in" := by
  have h1 := Process_odd ⟨0, 0, 0, 0, 0.5, 0⟩ ⟨1, 0.5, 0.5, [⟨0, 0⟩]⟩
    (by decide) (by decide)
  have hs := scrollingLabel_of_uninit (⟨0, 0, 0, 0, 0.5, 0⟩ : State)
    (⟨1, 0.5, 0.5, [⟨0, 0⟩]⟩ : Input) rfl
  have hz : zoomingLabel ⟨0, 0, 0, 0, 0.5, 0⟩ ⟨1, 0.5, 0.5, [⟨0, 0⟩]⟩ = "Zoom in" := by
    norm_num [zoomingLabel]
  have hok : (Process ⟨0, 0, 0, 0, 0.5, 0⟩ ⟨1, 0.5, 0.5, [⟨0, 0⟩]⟩).2 =
      Except.ok ⟨"___", "Zoom in", "___"⟩ := by
    simp only [h1, hs, hz]
  refine ⟨by norm_num, by norm_num, by norm_num, ?_⟩
  exact (C7_zoom_band ⟨0, 0, 0, 0, 0.5, 0⟩ ⟨1, 0.5, 0.5, [⟨0, 0⟩]⟩
    ⟨"___", "Zoom in", "___"⟩ (by norm_num) (by norm_num) hok).2.1 (by norm_num)

theorem C8_witness :
    (([] : List NormalizedLandmark).length = 0) ∧
    (Process ⟨0.1, 0.2, 90, 0, 0.4, 7⟩ ⟨0.3, 0.5, 0.5, []⟩).2 =
      Except.error Err.invalidInput ∧
    (Process ⟨0.1, 0.2, 90, 0, 0.4, 7⟩ ⟨0.3, 0.5, 0.5, []⟩).1.previous_angle = 90 := by
  have h := C8_empty_input_atomic ⟨0.1, 0.2, 90, 0, 0.4, 7⟩ ⟨0.3, 0.5, 0.5, []⟩ rfl
  exact ⟨rfl, h.1, h.2.2.2.2⟩

theorem C9_witness :
    (-Real.pi < (0 : ℝ) ∧ (0 : ℝ) ≤ Real.pi) ∧
    radianToDegree 0 = round ((0 : ℝ) * 180 / Real.pi) ∧
    (-180 ≤ radianToDegree 0 ∧ radianToDegree 0 ≤ 180) := by
  have h1 : -Real.pi < (0 : ℝ) := by linarith [Real.pi_pos]
  have h2 : (0 : ℝ) ≤ Real.pi := Real.pi_pos.le
  exact ⟨⟨h1, h2⟩, (C9_radianToDegree_round 0).1, (C9_radianToDegree_round 0).2 h1 h2⟩

theorem C10_witness :
    ((⟨0.3, 0, 0.5, [⟨0, 0⟩]⟩ : Input).x_center = 0 ∧
      (⟨"___", "___", "___"⟩ : Output).scrolling = "___") ∧
    ((⟨0, 0.3, 0, 0, 0.3, 1⟩ : State).previous_angle = 0 ∧
      (⟨"___", "___", "___"⟩ : Output).sliding = "___") := by
  have hok1 : (Process (Process ⟨0, 0.7, 0, 0, 0.5, 0⟩ ⟨0.3, 0, 0.5, [⟨0, 0⟩]⟩).1
      ⟨0.3, 0.9, 0.9, [⟨0.5, 0.5⟩, ⟨0, 0⟩, ⟨0, 0⟩, ⟨0, 0⟩, ⟨0, 0⟩, ⟨0, 0⟩, ⟨0, 0⟩,
        ⟨0, 0⟩, ⟨0, 0⟩, ⟨0.5, 0.4⟩]⟩).2 = Except.ok ⟨"___", "___", "___"⟩ := by
    have h1 := Process_odd ⟨0, 0.7, 0, 0, 0.5, 0⟩ ⟨0.3, 0, 0.5, [⟨0, 0⟩]⟩
      (by decide) (by decide)
    rw [h1]
    show (Process (⟨0, 0.5, 0, 0, 0.3, 1⟩ : State)
      ⟨0.3, 0.9, 0.9, [⟨0.5, 0.5⟩, ⟨0, 0⟩, ⟨0, 0⟩, ⟨0, 0⟩, ⟨0, 0⟩, ⟨0, 0⟩, ⟨0, 0⟩,
        ⟨0, 0⟩, ⟨0, 0⟩, ⟨0.5, 0.4⟩]⟩).2 = Except.ok ⟨"___", "___", "___"⟩
    have h2 := Process_even_full (⟨0, 0.5, 0, 0, 0.3, 1⟩ : State)
      ⟨0.3, 0.9, 0.9, [⟨0.5, 0.5⟩, ⟨0, 0⟩, ⟨0, 0⟩, ⟨0, 0⟩, ⟨0, 0⟩, ⟨0, 0⟩, ⟨0, 0⟩,
        ⟨0, 0⟩, ⟨0, 0⟩, ⟨0.5, 0.4⟩]⟩ (by decide) (by decide) (by decide)
    have hs := scrollingLabel_of_uninit (⟨0, 0.5, 0, 0, 0.3, 1⟩ : State)
      (⟨0.3, 0.9, 0.9, [⟨0.5, 0.5⟩, ⟨0, 0⟩, ⟨0, 0⟩, ⟨0, 0⟩, ⟨0, 0⟩, ⟨0, 0⟩, ⟨0, 0⟩,
        ⟨0, 0⟩, ⟨0, 0⟩, ⟨0.5, 0.4⟩]⟩ : Input) rfl
    have hz : zoomingLabel ⟨0, 0.5, 0, 0, 0.3, 1⟩
        ⟨0.3, 0.9, 0.9, [⟨0.5, 0.5⟩, ⟨0, 0⟩, ⟨0, 0⟩, ⟨0, 0⟩, ⟨0, 0⟩, ⟨0, 0⟩, ⟨0, 0⟩,
          ⟨0, 0⟩, ⟨0, 0⟩, ⟨0.5, 0.4⟩]⟩ = "___" := by
      norm_num [zoomingLabel]
    simp only [h2, hs, hz, slidingLabel_of_uninit]
  have hok2 : (Process ⟨0, 0.3, 0, 0, 0.3, 1⟩
      ⟨0.3, 0.3, 0.3, [⟨0.5, 0.5⟩, ⟨0, 0⟩, ⟨0, 0⟩, ⟨0, 0⟩, ⟨0, 0⟩, ⟨0, 0⟩, ⟨0, 0⟩,
        ⟨0, 0⟩, ⟨0, 0⟩, ⟨0.5, 0.4⟩]⟩).2 = Except.ok ⟨"___", "___", "___"⟩ := by
    have h2 := Process_even_full ⟨0, 0.3, 0, 0, 0.3, 1⟩
      ⟨0.3, 0.3, 0.3, [⟨0.5, 0.5⟩, ⟨0, 0⟩, ⟨0, 0⟩, ⟨0, 0⟩, ⟨0, 0⟩, ⟨0, 0⟩, ⟨0, 0⟩,
        ⟨0, 0⟩, ⟨0, 0⟩, ⟨0.5, 0.4⟩]⟩ (by decide) (by decide) (by decide)
    have hs := scrollingLabel_of_uninit (⟨0, 0.3, 0, 0, 0.3, 1⟩ : State)
      (⟨0.3, 0.3, 0.3, [⟨0.5, 0.5⟩, ⟨0, 0⟩, ⟨0, 0⟩, ⟨0, 0⟩, ⟨0, 0⟩, ⟨0, 0⟩, ⟨0, 0⟩,
        ⟨0, 0⟩, ⟨0, 0⟩, ⟨0.5, 0.4⟩]⟩ : Input) rfl
    have hz : zoomingLabel ⟨0, 0.3, 0, 0, 0.3, 1⟩
        ⟨0.3, 0.3, 0.3, [⟨0.5, 0.5⟩, ⟨0, 0⟩, ⟨0, 0⟩, ⟨0, 0⟩, ⟨0, 0⟩, ⟨0, 0⟩, ⟨0, 0⟩,
          ⟨0, 0⟩, ⟨0, 0⟩, ⟨0.5, 0.4⟩]⟩ = "___" := by
      norm_num [zoomingLabel]
    simp only [h2, hs, hz, slidingLabel_of_uninit]
  exact ⟨⟨rfl, (C10_truthiness_gates).1 ⟨0, 0.7, 0, 0, 0.5, 0⟩
      ⟨0.3, 0, 0.5, [⟨0, 0⟩]⟩ _ ⟨"___", "___", "___"⟩ rfl (by decide) hok1⟩,
    ⟨rfl, (C10_truthiness_gates).2 ⟨0, 0.3, 0, 0, 0.3, 1⟩
      ⟨0.3, 0.3, 0.3, [⟨0.5, 0.5⟩, ⟨0, 0⟩, ⟨0, 0⟩, ⟨0, 0⟩, ⟨0, 0⟩, ⟨0, 0⟩, ⟨0, 0⟩,
        ⟨0, 0⟩, ⟨0, 0⟩, ⟨0.5, 0.4⟩]⟩ ⟨"___", "___", "___"⟩ rfl hok2⟩⟩

end HandMovementRecognition
